import Mathlib

/-!
Shallow embedding, in Lean 4, of the safety and resilience control plane of
the tinywindow trading agent: the risk-level circuit breaker
(`tinywindow/safety/circuit_breaker.py`), the kill switch
(`tinywindow/safety/kill_switch.py`), the position-limit enforcer
(`tinywindow/safety/limits.py`), the retry backoff calculator
(`tinywindow/resilience/retry.py`), the per-service circuit breaker
(`tinywindow/resilience/circuit_breaker.py`), and the fallback handler
(`tinywindow/resilience/fallback.py`).

Modelling conventions:
- Python floats are modelled as `ℚ`, counters as `ℕ`, wall-clock instants as
  `ℤ` (risk breaker, `datetime` seconds) or `ℚ` (service breaker,
  `time.time()`).
- `Optional[x]` becomes `Option`.
- Methods with external side effects (persistence, audit log, callbacks)
  return, beside the new state, an explicit list of effect markers; a call
  that performs no external action returns the empty list.
- Environment-dependent results (number of orders an exchange cancelled,
  the outcome of a backup service call) are passed in as parameters.
-/

namespace TinyWindow

/-! ## Risk-level circuit breaker (`tinywindow/safety/circuit_breaker.py`) -/

/-- `CircuitBreakerState` enum. -/
inductive CircuitBreakerState where
  | CLOSED
  | OPEN
  | HALF_OPEN
deriving DecidableEq, Repr

/-- `CircuitBreakerConfig` dataclass.  Percentages as `ℚ`, counters as `ℕ`,
durations in whole seconds as `ℤ`. -/
structure CircuitBreakerConfig where
  maxDailyLossPct : ℚ := -10
  maxDrawdownPct : ℚ := -15
  maxTradesPerHour : ℕ := 50
  maxErrorRatePct : ℚ := 10
  maxConsecutiveFailures : ℕ := 5
  monitorIntervalSeconds : ℤ := 30
  recoveryTimeoutSeconds : ℤ := 300
deriving DecidableEq, Repr

/-- `CircuitBreakerMetrics` dataclass (the `last_updated` timestamp carries no
behaviour and is not modelled). -/
structure CircuitBreakerMetrics where
  dailyPnlPct : ℚ := 0
  drawdownPct : ℚ := 0
  tradesLastHour : ℕ := 0
  errorRatePct : ℚ := 0
  consecutiveFailures : ℕ := 0
  totalTradesToday : ℕ := 0
  totalErrorsToday : ℕ := 0
deriving DecidableEq, Repr

/-- The mutable fields of a `CircuitBreaker` object: `_state`, `_metrics`,
`_last_trip_reason`, `_trip_time`. -/
structure CBState where
  state : CircuitBreakerState
  metrics : CircuitBreakerMetrics
  lastTripReason : Option String
  tripTime : Option ℤ
deriving DecidableEq, Repr

/-- The state of a freshly constructed `CircuitBreaker` (`__init__`). -/
def CBState.init : CBState :=
  { state := .CLOSED, metrics := {}, lastTripReason := none, tripTime := none }

/-- Reason value returned by `check_thresholds`: the Python code builds a
string `"<category>_exceeded:<observed value>"`; we model it as a constructor
tagging the category, carrying the observed value. -/
inductive BreachReason where
  | dailyLoss (v : ℚ)
  | drawdown (v : ℚ)
  | tradeVelocity (n : ℕ)
  | errorRate (v : ℚ)
  | consecutiveFailures (n : ℕ)
deriving DecidableEq, Repr

/-- `CircuitBreaker.check_thresholds`, translated clause by clause from the
early-return chain in the source. -/
def checkThresholds (cfg : CircuitBreakerConfig) (m : CircuitBreakerMetrics) :
    Bool × Option BreachReason :=
  if m.dailyPnlPct ≤ cfg.maxDailyLossPct then
    (true, some (.dailyLoss m.dailyPnlPct))
  else if m.drawdownPct ≤ cfg.maxDrawdownPct then
    (true, some (.drawdown m.drawdownPct))
  else if cfg.maxTradesPerHour ≤ m.tradesLastHour then
    (true, some (.tradeVelocity m.tradesLastHour))
  else if cfg.maxErrorRatePct ≤ m.errorRatePct then
    (true, some (.errorRate m.errorRatePct))
  else if cfg.maxConsecutiveFailures ≤ m.consecutiveFailures then
    (true, some (.consecutiveFailures m.consecutiveFailures))
  else
    (false, none)

/-- The five threshold checks of `check_thresholds` as an ordered list of
(condition, reason) pairs, in the priority order the source tests them.  Used
to state the first-breach property of claim C2. -/
def thresholdChecks (cfg : CircuitBreakerConfig) (m : CircuitBreakerMetrics) :
    List (Bool × BreachReason) :=
  [ (decide (m.dailyPnlPct ≤ cfg.maxDailyLossPct), .dailyLoss m.dailyPnlPct),
    (decide (m.drawdownPct ≤ cfg.maxDrawdownPct), .drawdown m.drawdownPct),
    (decide (cfg.maxTradesPerHour ≤ m.tradesLastHour), .tradeVelocity m.tradesLastHour),
    (decide (cfg.maxErrorRatePct ≤ m.errorRatePct), .errorRate m.errorRatePct),
    (decide (cfg.maxConsecutiveFailures ≤ m.consecutiveFailures),
      .consecutiveFailures m.consecutiveFailures) ]

/-- Reading of the spec sentence for `check_thresholds`: return the first
breached condition of the ordered priority list, else `(false, none)`. -/
def checkThresholdsSpec (cfg : CircuitBreakerConfig) (m : CircuitBreakerMetrics) :
    Bool × Option BreachReason :=
  match (thresholdChecks cfg m).find? (fun c => c.1) with
  | some c => (true, some c.2)
  | none => (false, none)

/-- External actions of the risk-level circuit breaker: audit-log write,
state persistence, callback fan-out. -/
inductive CBEffect where
  | logEvent (eventType details : String)
  | saveState
  | notifyCallbacks (eventType : String) (reason : Option String)
deriving DecidableEq, Repr

/-- `CircuitBreaker.trip(reason)` at wall-clock instant `now`. -/
def trip (reason : String) (now : ℤ) (s : CBState) : CBState × List CBEffect :=
  if s.state = .OPEN then
    (s, [])
  else
    ({ s with state := .OPEN, lastTripReason := some reason, tripTime := some now },
      [.logEvent "TRIP" reason, .saveState, .notifyCallbacks "TRIP" (some reason)])

/-- `CircuitBreaker.reset()`. -/
def reset (s : CBState) : CBState × List CBEffect :=
  ({ state := .CLOSED,
     metrics := { s.metrics with consecutiveFailures := 0 },
     lastTripReason := none,
     tripTime := none },
    [.logEvent "RESET" "from_state", .saveState, .notifyCallbacks "RESET" none])

/-- `CircuitBreaker.try_half_open()` at wall-clock instant `now`.  Returns the
boolean result, the new state and the external effects. -/
def tryHalfOpen (cfg : CircuitBreakerConfig) (now : ℤ) (s : CBState) :
    Bool × CBState × List CBEffect :=
  if s.state ≠ .OPEN then
    (false, s, [])
  else
    match s.tripTime with
    | some t =>
        if now - t < cfg.recoveryTimeoutSeconds then
          (false, s, [])
        else
          (true, { s with state := .HALF_OPEN },
            [.logEvent "HALF_OPEN" "recovery_test", .saveState])
    | none =>
        (true, { s with state := .HALF_OPEN },
          [.logEvent "HALF_OPEN" "recovery_test", .saveState])

/-- The in-memory state-transition operations of a `CircuitBreaker`, each with
the wall-clock instant at which it runs. -/
inductive CBOp where
  | opTrip (reason : String) (t : ℤ)
  | opReset
  | opTryHalfOpen (t : ℤ)
deriving DecidableEq, Repr

/-- Apply one operation, discarding its return value and effects. -/
def applyCBOp (cfg : CircuitBreakerConfig) (s : CBState) : CBOp → CBState
  | .opTrip reason t => (trip reason t s).1
  | .opReset => (reset s).1
  | .opTryHalfOpen t => (tryHalfOpen cfg t s).2.1

/-- The breaker state after a sequence of operations from the initial state:
the states every in-memory `CircuitBreaker` can actually be in. -/
def runCBOps (cfg : CircuitBreakerConfig) (ops : List CBOp) : CBState :=
  ops.foldl (applyCBOp cfg) CBState.init

/-- Structural invariant of the breaker: whenever it is OPEN, the trip time is
recorded. -/
def CBInv (s : CBState) : Prop :=
  s.state = .OPEN → s.tripTime ≠ none

/-! ## Kill switch (`tinywindow/safety/kill_switch.py`) -/

/-- `KillSwitchMode` enum. -/
inductive KillSwitchMode where
  | HALT_ONLY
  | CLOSE_POSITIONS
deriving DecidableEq, Repr

/-- `KillSwitchEvent` dataclass (audit record). -/
structure KillSwitchEvent where
  eventType : String
  mode : Option KillSwitchMode
  reason : String
  triggeredBy : String
  timestamp : ℤ
  positionsClosed : ℕ := 0
  ordersCancelled : ℕ := 0
deriving DecidableEq, Repr

/-- The mutable fields of a `KillSwitch` object: `_active`, `_mode`,
`_activation_time`, `_activation_reason`. -/
structure KSState where
  active : Bool
  mode : Option KillSwitchMode
  activationTime : Option ℤ
  activationReason : Option String
deriving DecidableEq, Repr

/-- The state of a freshly constructed `KillSwitch` (`__init__`). -/
def KSState.init : KSState :=
  { active := false, mode := none, activationTime := none, activationReason := none }

/-- External actions of the kill switch. -/
inductive KSEffect where
  | cancelAllOrders
  | closeAllPositions
  | logEvent
  | saveState
  | notifyCallbacks
deriving DecidableEq, Repr

/-- Python `x or ""` on an optional string: the only falsy string is `""`, so
this is `Option.getD "" `. -/
def orEmpty (x : Option String) : String := x.getD ""

/-- `KillSwitch.activate(mode, reason, triggered_by)` at instant `now`.
`ordersCancelled` and `positionsClosed` are the environment-supplied results
of the best-effort `_cancel_all_orders` / `_close_all_positions` sweeps. -/
def activate (s : KSState) (mode : KillSwitchMode) (reason triggeredBy : String)
    (now : ℤ) (ordersCancelled positionsClosed : ℕ) :
    KillSwitchEvent × KSState × List KSEffect :=
  if s.active then
    ({ eventType := "ALREADY_ACTIVE", mode := s.mode, reason := orEmpty s.activationReason,
       triggeredBy := triggeredBy, timestamp := now }, s, [])
  else
    let s' : KSState :=
      { active := true, mode := some mode, activationTime := some now,
        activationReason := some reason }
    let closed := if mode = .CLOSE_POSITIONS then positionsClosed else 0
    let effects :=
      [KSEffect.cancelAllOrders]
        ++ (if mode = .CLOSE_POSITIONS then [KSEffect.closeAllPositions] else [])
        ++ [KSEffect.logEvent, KSEffect.saveState, KSEffect.notifyCallbacks]
    ({ eventType := "ACTIVATE", mode := some mode, reason := reason,
       triggeredBy := triggeredBy, timestamp := now, positionsClosed := closed,
       ordersCancelled := ordersCancelled }, s', effects)

/-- `KillSwitch.deactivate(reason, triggered_by)` at instant `now`. -/
def deactivate (s : KSState) (reason triggeredBy : String) (now : ℤ) :
    KillSwitchEvent × KSState × List KSEffect :=
  if !s.active then
    ({ eventType := "ALREADY_INACTIVE", mode := none, reason := reason,
       triggeredBy := triggeredBy, timestamp := now }, s, [])
  else
    ({ eventType := "DEACTIVATE", mode := s.mode, reason := reason,
       triggeredBy := triggeredBy, timestamp := now },
      { active := false, mode := none, activationTime := none, activationReason := none },
      [KSEffect.logEvent, KSEffect.saveState, KSEffect.notifyCallbacks])

/-! ## Position-limit enforcer (`tinywindow/safety/limits.py`) -/

/-- `RejectionReason` enum. -/
inductive RejectionReason where
  | POSITION_SIZE_EXCEEDED
  | TOTAL_EXPOSURE_EXCEEDED
  | LEVERAGE_EXCEEDED
  | SECTOR_EXPOSURE_EXCEEDED
  | SYMBOL_NOT_WHITELISTED
  | INVALID_ORDER
deriving DecidableEq, Repr

/-- `LimitCheckResult` dataclass (the free-form `details` map carries no
behaviour and is not modelled). -/
structure LimitCheckResult where
  allowed : Bool
  rejectionReason : Option RejectionReason := none
deriving DecidableEq, Repr

/-- `LimitConfig` dataclass. -/
structure LimitConfig where
  maxPositionSizeUsd : ℚ := 10000
  maxTotalExposureUsd : ℚ := 50000
  maxLeverage : ℚ := 20
  maxSectorExposurePct : ℚ := 40
  whitelistedSymbols : List String :=
    ["BTC/USDT", "ETH/USDT", "SOL/USDT", "BTC/USD", "ETH/USD", "SOL/USD"]
deriving DecidableEq, Repr

/-- Order side; models `order.side.upper() == "BUY"` as equality with `buy`. -/
inductive Side where
  | buy
  | sell
deriving DecidableEq, Repr

/-- `OrderRequest` dataclass (`order_type` carries no behaviour here). -/
structure OrderRequest where
  symbol : String
  side : Side
  amount : ℚ
  price : Option ℚ := none
deriving DecidableEq, Repr

/-- `Position` dataclass. -/
structure Position where
  symbol : String
  amount : ℚ
  entryPrice : ℚ
  currentPrice : ℚ
  unrealizedPnl : ℚ
  sector : String := "crypto"
deriving DecidableEq, Repr

/-- `Position.notional_value`: `abs(amount) * current_price`. -/
def Position.notionalValue (p : Position) : ℚ := |p.amount| * p.currentPrice

/-- The mutable fields of a `PositionLimitEnforcer`: its config, the position
map (modelled as the list of stored positions) and `_portfolio_value`. -/
structure EnforcerState where
  config : LimitConfig
  positions : List Position
  portfolioValue : ℚ := 0
deriving DecidableEq, Repr

/-- `PositionLimitEnforcer.SECTOR_MAP`. -/
def SECTOR_MAP : List (String × String) :=
  [("BTC", "layer1"), ("ETH", "layer1"), ("SOL", "layer1"), ("AVAX", "layer1"),
   ("LINK", "oracle"), ("UNI", "defi"), ("AAVE", "defi"),
   ("DOGE", "meme"), ("SHIB", "meme")]

/-- `PositionLimitEnforcer._get_sector`. -/
def getSector (symbol : String) : String :=
  let base :=
    if symbol.contains '/' then ((symbol.splitOn "/").headD "").toUpper
    else symbol.toUpper
  (SECTOR_MAP.lookup base).getD "crypto"

/-- `PositionLimitEnforcer.get_total_exposure`. -/
def getTotalExposure (st : EnforcerState) : ℚ :=
  (st.positions.map Position.notionalValue).sum

/-- `PositionLimitEnforcer.get_sector_exposure`. -/
def getSectorExposure (st : EnforcerState) (sector : String) : ℚ :=
  ((st.positions.filter (fun p => getSector p.symbol = sector)).map
    Position.notionalValue).sum

/-- Python truthiness of an optional float: `None` and `0.0` are falsy. -/
def pyTruthy : Option ℚ → Bool
  | none => false
  | some p => p != 0

/-- Python `a or b` on optional floats: `a` when truthy, else `b`. -/
def pyOr (a b : Option ℚ) : Option ℚ :=
  if pyTruthy a then a else b

/-- The leverage gate at the end of `check_order_allowed` (`# Check leverage`
block): runs for both sides; a BUY adds the order value to the exposure, a
SELL leaves it unchanged. -/
def leverageGate (st : EnforcerState) (side : Side) (orderValueUsd : ℚ) :
    LimitCheckResult :=
  if 0 < st.portfolioValue then
    let currentExposure := getTotalExposure st
    let newExposure :=
      if side = .buy then currentExposure + orderValueUsd else currentExposure
    if st.config.maxLeverage < newExposure / st.portfolioValue then
      { allowed := false, rejectionReason := some .LEVERAGE_EXCEEDED }
    else
      { allowed := true }
  else
    { allowed := true }

/-- `PositionLimitEnforcer.check_order_allowed(order, current_price)`,
translated gate by gate from the source. -/
def checkOrderAllowed (st : EnforcerState) (order : OrderRequest)
    (currentPrice : Option ℚ) : LimitCheckResult :=
  if order.symbol ∉ st.config.whitelistedSymbols then
    { allowed := false, rejectionReason := some .SYMBOL_NOT_WHITELISTED }
  else
    match pyOr order.price currentPrice with
    | none =>
        { allowed := false, rejectionReason := some .INVALID_ORDER }
    | some p =>
        if p = 0 then
          { allowed := false, rejectionReason := some .INVALID_ORDER }
        else
          let orderValueUsd := order.amount * p
          if st.config.maxPositionSizeUsd < orderValueUsd then
            { allowed := false, rejectionReason := some .POSITION_SIZE_EXCEEDED }
          else if order.side = .buy then
            let currentExposure := getTotalExposure st
            let newExposure := currentExposure + orderValueUsd
            if st.config.maxTotalExposureUsd < newExposure then
              { allowed := false, rejectionReason := some .TOTAL_EXPOSURE_EXCEEDED }
            else
              let sector := getSector order.symbol
              let newSectorExposure := getSectorExposure st sector + orderValueUsd
              if 0 < st.portfolioValue ∧
                  st.config.maxSectorExposurePct <
                    newSectorExposure / st.portfolioValue * 100 then
                { allowed := false, rejectionReason := some .SECTOR_EXPOSURE_EXCEEDED }
              else
                leverageGate st order.side orderValueUsd
          else
            leverageGate st order.side orderValueUsd

/-! ## Retry backoff (`tinywindow/resilience/retry.py`) -/

/-- `RetryConfig` dataclass (the exception-classification tuples carry no
behaviour for `calculate_backoff` and are not modelled). -/
structure RetryConfig where
  maxAttempts : ℕ := 3
  baseDelay : ℚ := 1
  maxDelay : ℚ := 60
  exponentialBase : ℚ := 2
  jitter : ℚ := 1/10
deriving DecidableEq, Repr

/-- `calculate_backoff(attempt, config)`.  The source draws
`random.uniform(-jitter_range, jitter_range)` with
`jitter_range = delay * config.jitter`; we expose the draw as
`jitter_range * u` for a normalized sample `u ∈ [-1, 1]` passed in
explicitly. -/
def calculateBackoff (cfg : RetryConfig) (attempt : ℕ) (u : ℚ) : ℚ :=
  let delay := cfg.baseDelay * cfg.exponentialBase ^ attempt
  let jitterRange := delay * cfg.jitter
  min (delay + jitterRange * u) cfg.maxDelay

/-! ## Per-service circuit breaker (`tinywindow/resilience/circuit_breaker.py`) -/

/-- `CircuitState` enum. -/
inductive CircuitState where
  | CLOSED
  | OPEN
  | HALF_OPEN
deriving DecidableEq, Repr

/-- `CircuitBreakerConfig` dataclass of the per-service breaker. -/
structure ServiceBreakerConfig where
  failureThreshold : ℕ := 5
  successThreshold : ℕ := 2
  resetTimeout : ℚ := 60
  halfOpenMaxCalls : ℕ := 1
deriving DecidableEq, Repr

/-- The mutable fields of a `ServiceCircuitBreaker`: `_state`,
`_failure_count`, `_success_count`, `_last_failure_time`,
`_half_open_calls`. -/
structure SCState where
  state : CircuitState
  failureCount : ℕ
  successCount : ℕ
  lastFailureTime : Option ℚ
  halfOpenCalls : ℕ
deriving DecidableEq, Repr

/-- The state of a freshly constructed `ServiceCircuitBreaker`. -/
def SCState.init : SCState :=
  { state := .CLOSED, failureCount := 0, successCount := 0,
    lastFailureTime := none, halfOpenCalls := 0 }

/-- `ServiceCircuitBreaker._transition_to_open`. -/
def transitionToOpen (s : SCState) : SCState :=
  { s with state := .OPEN }

/-- `ServiceCircuitBreaker._transition_to_half_open`. -/
def transitionToHalfOpen (s : SCState) : SCState :=
  { s with state := .HALF_OPEN, successCount := 0, halfOpenCalls := 0 }

/-- `ServiceCircuitBreaker._transition_to_closed`. -/
def transitionToClosed (s : SCState) : SCState :=
  { s with state := .CLOSED, failureCount := 0, successCount := 0 }

/-- `ServiceCircuitBreaker.record_success` (ℕ subtraction models Python's
`max(0, failure_count - 1)`). -/
def recordSuccess (cfg : ServiceBreakerConfig) (s : SCState) : SCState :=
  if s.state = .HALF_OPEN then
    let s' := { s with successCount := s.successCount + 1 }
    if cfg.successThreshold ≤ s'.successCount then transitionToClosed s' else s'
  else if s.state = .CLOSED then
    { s with failureCount := s.failureCount - 1 }
  else
    s

/-- `ServiceCircuitBreaker.record_failure` at `time.time() = now`. -/
def recordFailure (cfg : ServiceBreakerConfig) (now : ℚ) (s : SCState) : SCState :=
  let s' := { s with failureCount := s.failureCount + 1, lastFailureTime := some now }
  if s'.state = .HALF_OPEN then
    transitionToOpen s'
  else if s'.state = .CLOSED ∧ cfg.failureThreshold ≤ s'.failureCount then
    transitionToOpen s'
  else
    s'

/-- `ServiceCircuitBreaker._check_state_transition` at `time.time() = now`. -/
def checkStateTransition (cfg : ServiceBreakerConfig) (now : ℚ) (s : SCState) : SCState :=
  if s.state = .OPEN then
    match s.lastFailureTime with
    | some t => if cfg.resetTimeout ≤ now - t then transitionToHalfOpen s else s
    | none => s
  else
    s

/-- The `state` property: runs `_check_state_transition`, then reports the
stored state.  Reading the state mutates the breaker, so both the reported
state and the updated breaker are returned. -/
def readState (cfg : ServiceBreakerConfig) (now : ℚ) (s : SCState) :
    CircuitState × SCState :=
  let s' := checkStateTransition cfg now s
  (s'.state, s')

/-! ## Fallback handler (`tinywindow/resilience/fallback.py`) -/

/-- `FallbackStrategy` enum. -/
inductive FallbackStrategy where
  | RETURN_DEFAULT
  | RETURN_CACHED
  | USE_BACKUP
  | QUEUE_FOR_RETRY
  | FAIL_FAST
deriving DecidableEq, Repr

/-- `FallbackConfig` dataclass over a value type `V`.  Whether a backup
service is configured, and what a call to it yields, is supplied per call to
`handleFailure` (the callable itself is environment). -/
structure FallbackConfig (V : Type) where
  strategy : FallbackStrategy := .RETURN_DEFAULT
  defaultValue : V
  maxQueueSize : ℕ := 1000

/-- The mutable fields of a `FallbackHandler`: the operation-keyed result
cache and the retry queue (queue items reduced to their operation name). -/
structure FallbackState (V : Type) where
  cache : List (String × V) := []
  retryQueue : List String := []

/-- `FallbackHandler.get_cached`. -/
def getCached {V : Type} (st : FallbackState V) (key : String) : Option V :=
  st.cache.lookup key

/-- `FallbackHandler._queue_for_retry`: bounded FIFO, drop-oldest on
overflow. -/
def queueForRetry {V : Type} (cfg : FallbackConfig V) (st : FallbackState V)
    (operationName : String) : FallbackState V :=
  let q :=
    if cfg.maxQueueSize ≤ st.retryQueue.length then st.retryQueue.drop 1
    else st.retryQueue
  { st with retryQueue := q ++ [operationName] }

/-- `FallbackHandler.handle_failure(operation_name, error, ...)`.
`backupOutcome` models `config.backup_service`: `none` when no backup service
is configured, `some r` for the outcome `r` of calling it.  Failure paths are
`Except.error`; every returning path yields the value together with the
updated handler state. -/
def handleFailure {V E : Type} (cfg : FallbackConfig V) (st : FallbackState V)
    (operationName : String) (err : E) (backupOutcome : Option (Except E V)) :
    Except E (V × FallbackState V) :=
  match cfg.strategy with
  | .FAIL_FAST => .error err
  | .RETURN_DEFAULT => .ok (cfg.defaultValue, st)
  | .RETURN_CACHED =>
      match getCached st operationName with
      | some v => .ok (v, st)
      | none => .ok (cfg.defaultValue, st)
  | .USE_BACKUP =>
      match backupOutcome with
      | some (.ok v) => .ok (v, st)
      | some (.error _) => .ok (cfg.defaultValue, st)
      | none => .ok (cfg.defaultValue, st)
  | .QUEUE_FOR_RETRY =>
      .ok (cfg.defaultValue, queueForRetry cfg st operationName)

/-! ## Theorems -/

/-- C2: `check_thresholds` evaluates the five conditions in the fixed
priority order daily-loss, drawdown, trade-velocity, error-rate,
consecutive-failures and returns `(true, reason)` for the first condition
breached, the reason encoding the category and observed value; whenever
`daily_pnl_pct ≤ max_daily_loss_pct` it returns breached with a daily-loss
reason regardless of the other metrics; when no condition is breached it
returns `(false, none)`. -/
theorem check_thresholds_first_breach (cfg : CircuitBreakerConfig)
    (m : CircuitBreakerMetrics) :
    checkThresholds cfg m = checkThresholdsSpec cfg m ∧
    (m.dailyPnlPct ≤ cfg.maxDailyLossPct →
      checkThresholds cfg m = (true, some (.dailyLoss m.dailyPnlPct))) ∧
    ((checkThresholds cfg m).1 = false → checkThresholds cfg m = (false, none)) := by
  unfold checkThresholds checkThresholdsSpec thresholdChecks
  split_ifs with h1 h2 h3 h4 h5 <;> simp_all [List.find?, -not_le, -Nat.not_le]

/-- Witness for C2 at a concrete snapshot: daily P&L of −11% against the
default −10% threshold is reported as a daily-loss breach. -/
theorem check_thresholds_first_breach_witness :
    checkThresholds {} { dailyPnlPct := -11 } =
      (true, some (.dailyLoss (-11))) :=
  (check_thresholds_first_breach {} { dailyPnlPct := -11 }).2.1 (by norm_num)

/-- C3: kill-switch activation and deactivation are idempotent: `activate` on
an already-active switch returns an `ALREADY_ACTIVE` event (carrying the
stored mode and reason) and leaves the state unchanged with no side effects;
`deactivate` on an inactive switch returns `ALREADY_INACTIVE` and leaves the
state unchanged with no side effects. -/
theorem kill_switch_idempotent (s : KSState) (mode : KillSwitchMode)
    (reason tb : String) (now : ℤ) (oc pc : ℕ) (reason2 tb2 : String) (now2 : ℤ) :
    (s.active = true →
      activate s mode reason tb now oc pc =
        ({ eventType := "ALREADY_ACTIVE", mode := s.mode,
           reason := orEmpty s.activationReason, triggeredBy := tb,
           timestamp := now }, s, [])) ∧
    (s.active = false →
      deactivate s reason2 tb2 now2 =
        ({ eventType := "ALREADY_INACTIVE", mode := none, reason := reason2,
           triggeredBy := tb2, timestamp := now2 }, s, [])) := by
  constructor <;> intro h <;> simp [activate, deactivate, h]

/-- Witness for C3 at concrete states: a second `activate` on an active
switch and a `deactivate` on the fresh (inactive) switch. -/
theorem kill_switch_idempotent_witness :
    activate { active := true, mode := some .HALT_ONLY, activationTime := some 5,
               activationReason := some "r0" } .CLOSE_POSITIONS "r1" "api" 9 3 2 =
      ({ eventType := "ALREADY_ACTIVE", mode := some .HALT_ONLY, reason := "r0",
         triggeredBy := "api", timestamp := 9 },
       { active := true, mode := some .HALT_ONLY, activationTime := some 5,
         activationReason := some "r0" }, []) ∧
    deactivate KSState.init "r2" "manual" 11 =
      ({ eventType := "ALREADY_INACTIVE", mode := none, reason := "r2",
         triggeredBy := "manual", timestamp := 11 }, KSState.init, []) :=
  ⟨(kill_switch_idempotent _ .CLOSE_POSITIONS "r1" "api" 9 3 2 "r2" "manual" 11).1 rfl,
   (kill_switch_idempotent KSState.init .CLOSE_POSITIONS "r1" "api" 9 3 2
      "r2" "manual" 11).2 rfl⟩

/-- C4: `trip` is idempotent: on a breaker that is already OPEN, a second
`trip` with any reason is a no-op, preserving the stored trip reason and trip
time and performing no persistence, audit, or callback side effects. -/
theorem trip_idempotent (s : CBState) (reason : String) (now : ℤ)
    (h : s.state = .OPEN) :
    trip reason now s = (s, []) := by
  simp [trip, h]

/-- Witness for C4 at a concrete OPEN breaker: the second trip changes
nothing and emits no effects. -/
theorem trip_idempotent_witness :
    trip "second_reason" 7
      { state := .OPEN, metrics := {}, lastTripReason := some "first_reason",
        tripTime := some 3 } =
      ({ state := .OPEN, metrics := {}, lastTripReason := some "first_reason",
         tripTime := some 3 }, []) :=
  trip_idempotent _ "second_reason" 7 rfl

/-- C9: for a whitelisted order whose `price` field is absent or zero and
with no usable `current_price`, `check_order_allowed` returns
allowed = false with `INVALID_ORDER` (a price of exactly 0 is treated the
same as a missing price). -/
theorem missing_price_invalid_order (st : EnforcerState) (order : OrderRequest)
    (cp : Option ℚ)
    (hw : order.symbol ∈ st.config.whitelistedSymbols)
    (hp : order.price = none ∨ order.price = some 0)
    (hc : cp = none ∨ cp = some 0) :
    checkOrderAllowed st order cp =
      { allowed := false, rejectionReason := some .INVALID_ORDER } := by
  have hpt : pyTruthy order.price = false := by
    rcases hp with h | h <;> simp [pyTruthy, h]
  have hor : pyOr order.price cp = cp := by simp [pyOr, hpt]
  rcases hc with h | h <;> subst h <;> simp [checkOrderAllowed, hw, hor]

/-- Witness for C9: a whitelisted market order with no price anywhere. -/
theorem missing_price_invalid_order_witness :
    checkOrderAllowed { config := {}, positions := [] }
      { symbol := "BTC/USDT", side := .buy, amount := 1, price := none } none =
      { allowed := false, rejectionReason := some .INVALID_ORDER } :=
  missing_price_invalid_order _ _ _ (by decide) (Or.inl rfl) (Or.inl rfl)

/-- C10: `handle_failure` raises if and only if the strategy is FAIL_FAST
(re-raising the original error); every other strategy returns a value, and a
failing backup service is swallowed with the default value returned. -/
theorem handle_failure_raises_iff_fail_fast {V E : Type} (cfg : FallbackConfig V)
    (st : FallbackState V) (op : String) (err : E) (bo : Option (Except E V)) :
    ((∃ e, handleFailure cfg st op err bo = .error e) ↔
      cfg.strategy = .FAIL_FAST) ∧
    (cfg.strategy = .FAIL_FAST → handleFailure cfg st op err bo = .error err) ∧
    (∀ e, cfg.strategy = .USE_BACKUP → bo = some (.error e) →
      handleFailure cfg st op err bo = .ok (cfg.defaultValue, st)) := by
  obtain ⟨strat, dv, mq⟩ := cfg
  cases strat
  case FAIL_FAST => simp [handleFailure]
  case RETURN_DEFAULT => simp [handleFailure]
  case RETURN_CACHED => cases h : getCached st op <;> simp [handleFailure, h]
  case USE_BACKUP =>
    rcases bo with _ | r
    · simp [handleFailure]
    · rcases r with e | v <;> simp [handleFailure]
  case QUEUE_FOR_RETRY => simp [handleFailure]

/-- Witness for C10 at concrete handlers: FAIL_FAST re-raises the original
error; USE_BACKUP with a failing backup swallows it and returns the
default. -/
theorem handle_failure_raises_iff_fail_fast_witness :
    handleFailure (V := ℕ) (E := ℕ)
        { strategy := .FAIL_FAST, defaultValue := 0 } {} "op" 42 none =
      .error 42 ∧
    handleFailure (V := ℕ) (E := ℕ)
        { strategy := .USE_BACKUP, defaultValue := 7 } {} "op" 42
        (some (.error 5)) =
      .ok (7, {}) :=
  ⟨(handle_failure_raises_iff_fail_fast _ _ "op" 42 none).2.1 rfl,
   (handle_failure_raises_iff_fail_fast _ _ "op" 42 (some (.error 5))).2.2 5 rfl rfl⟩

/-- Counterexample to C5 as stated: a whitelisted BUY order with usable price
and notional exactly equal to `max_position_size_usd` (1 × 10000 = 10000) is
nevertheless rejected — the later total-exposure gate fires because an
existing BTC position already holds 45000 of the 50000 exposure budget.  So
`check_order_allowed` does not in general allow an order whose notional
equals the position-size limit. -/
theorem boundary_notional_not_always_allowed :
    ((1 : ℚ) * 10000 = ({} : LimitConfig).maxPositionSizeUsd) ∧
    checkOrderAllowed
      { config := {},
        positions := [{ symbol := "BTC/USDT", amount := 1, entryPrice := 40000,
                        currentPrice := 45000, unrealizedPnl := 5000 }],
        portfolioValue := 0 }
      { symbol := "ETH/USDT", side := .buy, amount := 1, price := some 10000 }
      none =
      { allowed := false, rejectionReason := some .TOTAL_EXPOSURE_EXCEEDED } := by
  constructor
  · norm_num
  · norm_num [checkOrderAllowed, pyOr, pyTruthy, getTotalExposure,
      Position.notionalValue]

/-- C5 (amended): for every whitelisted order with a usable price, the
position-size gate passes when the notional is at most (in particular,
exactly equal to) `max_position_size_usd` — the order is never rejected with
`POSITION_SIZE_EXCEEDED` — while any order whose notional exceeds the limit
by a positive amount is rejected with `POSITION_SIZE_EXCEEDED`. -/
theorem position_size_gate (st : EnforcerState) (order : OrderRequest)
    (cp : Option ℚ) (p : ℚ)
    (hw : order.symbol ∈ st.config.whitelistedSymbols)
    (hp : pyOr order.price cp = some p) (hp0 : p ≠ 0) :
    (order.amount * p ≤ st.config.maxPositionSizeUsd →
      (checkOrderAllowed st order cp).rejectionReason ≠
        some .POSITION_SIZE_EXCEEDED) ∧
    (st.config.maxPositionSizeUsd < order.amount * p →
      checkOrderAllowed st order cp =
        { allowed := false, rejectionReason := some .POSITION_SIZE_EXCEEDED }) := by
  unfold checkOrderAllowed
  simp only [hw, not_true_eq_false, if_false, hp]
  rw [if_neg hp0]
  constructor
  · intro hle
    rw [if_neg (not_lt.mpr hle)]
    split_ifs <;> simp [leverageGate] <;> split_ifs <;> simp
  · intro hgt
    rw [if_pos hgt]

/-- Witness for C5 (amended) at a concrete over-limit order: BUY 2 ETH/USDT
at 10000 (notional 20000 against the default 10000 limit) is rejected with
`POSITION_SIZE_EXCEEDED`. -/
theorem position_size_gate_witness :
    checkOrderAllowed { config := {}, positions := [] }
      { symbol := "ETH/USDT", side := .buy, amount := 2, price := some 10000 }
      none =
      { allowed := false, rejectionReason := some .POSITION_SIZE_EXCEEDED } :=
  (position_size_gate { config := {}, positions := [] }
      { symbol := "ETH/USDT", side := .buy, amount := 2, price := some 10000 }
      none 10000 (by decide) rfl (by norm_num)).2 (by norm_num)

/-- C6: a SELL order is never rejected with `TOTAL_EXPOSURE_EXCEEDED` or
`SECTOR_EXPOSURE_EXCEEDED` (those gates are skipped), but the whitelist,
position-size and leverage gates still apply, the leverage gate being
computed against the current total exposure left unchanged by the order. -/
theorem sell_skips_exposure_gates (st : EnforcerState) (order : OrderRequest)
    (cp : Option ℚ) (hs : order.side = .sell) :
    ((checkOrderAllowed st order cp).rejectionReason ≠
        some .TOTAL_EXPOSURE_EXCEEDED ∧
      (checkOrderAllowed st order cp).rejectionReason ≠
        some .SECTOR_EXPOSURE_EXCEEDED) ∧
    (order.symbol ∉ st.config.whitelistedSymbols →
      checkOrderAllowed st order cp =
        { allowed := false, rejectionReason := some .SYMBOL_NOT_WHITELISTED }) ∧
    (∀ p, order.symbol ∈ st.config.whitelistedSymbols →
      pyOr order.price cp = some p → p ≠ 0 →
      order.amount * p ≤ st.config.maxPositionSizeUsd →
      checkOrderAllowed st order cp =
        (if 0 < st.portfolioValue ∧
            st.config.maxLeverage < getTotalExposure st / st.portfolioValue then
          { allowed := false, rejectionReason := some .LEVERAGE_EXCEEDED }
        else
          { allowed := true })) := by
  have hside : order.side ≠ .buy := by rw [hs]; decide
  refine ⟨?_, ?_, ?_⟩
  · unfold checkOrderAllowed
    split_ifs
    all_goals try simp
    all_goals
      rcases hpy : pyOr order.price cp with _ | p
    all_goals simp [hpy]
    all_goals try split_ifs
    all_goals try simp [hside, leverageGate]
    all_goals try split_ifs
    all_goals simp
  · intro hnw
    simp [checkOrderAllowed, hnw]
  · intro p hw hp hp0 hle
    unfold checkOrderAllowed
    have hnn : ¬ (order.symbol ∉ st.config.whitelistedSymbols) := by simpa using hw
    rw [if_neg hnn]
    simp only [hp]
    rw [if_neg hp0, if_neg (not_lt.mpr hle), if_neg hside]
    unfold leverageGate
    rw [hs]
    by_cases h1 : 0 < st.portfolioValue <;>
      by_cases h2 : st.config.maxLeverage < getTotalExposure st / st.portfolioValue <;>
      simp [h1, h2]

/-- Witness for C6 at a concrete SELL order: with portfolio value 1 and an
existing 45000 exposure, leverage 45000x exceeds the 20x limit, so the SELL
is rejected with `LEVERAGE_EXCEEDED` (not an exposure rejection). -/
theorem sell_skips_exposure_gates_witness :
    checkOrderAllowed
      { config := {},
        positions := [{ symbol := "BTC/USDT", amount := 1, entryPrice := 40000,
                        currentPrice := 45000, unrealizedPnl := 5000 }],
        portfolioValue := 1 }
      { symbol := "BTC/USDT", side := .sell, amount := 1, price := some 100 }
      none =
      { allowed := false, rejectionReason := some .LEVERAGE_EXCEEDED } := by
  have h := (sell_skips_exposure_gates
      { config := {},
        positions := [{ symbol := "BTC/USDT", amount := 1, entryPrice := 40000,
                        currentPrice := 45000, unrealizedPnl := 5000 }],
        portfolioValue := 1 }
      { symbol := "BTC/USDT", side := .sell, amount := 1, price := some 100 }
      none rfl).2.2 100 (by decide) rfl (by norm_num) (by norm_num)
  rw [h]
  norm_num [getTotalExposure, Position.notionalValue]

/-- Counterexample to C7 as stated: the RetryConfig with base_delay 1,
max_delay 60, exponential_base 1/2 and jitter 1/10 has all parameters
positive, yet `calculate_backoff` strictly decreases from attempt 0 to
attempt 1 (1 versus 1/2, with a zero jitter draw). -/
theorem calculate_backoff_not_monotone :
    (0 < ({ maxAttempts := 3, baseDelay := 1, maxDelay := 60,
            exponentialBase := 1/2, jitter := 1/10 } : RetryConfig).maxAttempts ∧
     0 < ({ maxAttempts := 3, baseDelay := 1, maxDelay := 60,
            exponentialBase := 1/2, jitter := 1/10 } : RetryConfig).baseDelay ∧
     0 < ({ maxAttempts := 3, baseDelay := 1, maxDelay := 60,
            exponentialBase := 1/2, jitter := 1/10 } : RetryConfig).maxDelay ∧
     0 < ({ maxAttempts := 3, baseDelay := 1, maxDelay := 60,
            exponentialBase := 1/2, jitter := 1/10 } : RetryConfig).exponentialBase ∧
     0 < ({ maxAttempts := 3, baseDelay := 1, maxDelay := 60,
            exponentialBase := 1/2, jitter := 1/10 } : RetryConfig).jitter) ∧
    calculateBackoff { maxAttempts := 3, baseDelay := 1, maxDelay := 60,
                       exponentialBase := 1/2, jitter := 1/10 } 1 0 <
      calculateBackoff { maxAttempts := 3, baseDelay := 1, maxDelay := 60,
                         exponentialBase := 1/2, jitter := 1/10 } 0 0 := by
  norm_num [calculateBackoff]

/-- C7 (amended): for every RetryConfig with nonnegative base_delay and
exponential_base at least 1, and any fixed normalized jitter draw `u` with
`jitter * u ≥ -1` (which holds whenever `|u| ≤ 1` and `jitter ≤ 1`),
`calculate_backoff` is non-decreasing in the attempt number; and for every
config and attempt, the result is capped at `max_delay`. -/
theorem calculate_backoff_monotone_capped (cfg : RetryConfig) (u : ℚ) (a b : ℕ)
    (hab : a ≤ b) (hbase : 0 ≤ cfg.baseDelay) (hexp : 1 ≤ cfg.exponentialBase)
    (hu : -1 ≤ cfg.jitter * u) :
    calculateBackoff cfg a u ≤ calculateBackoff cfg b u ∧
    calculateBackoff cfg b u ≤ cfg.maxDelay := by
  refine ⟨?_, min_le_right _ _⟩
  simp only [calculateBackoff]
  apply min_le_min _ le_rfl
  have hpow : cfg.exponentialBase ^ a ≤ cfg.exponentialBase ^ b :=
    pow_le_pow_right₀ hexp hab
  have hd : cfg.baseDelay * cfg.exponentialBase ^ a ≤
      cfg.baseDelay * cfg.exponentialBase ^ b :=
    mul_le_mul_of_nonneg_left hpow hbase
  have hfac : (0 : ℚ) ≤ 1 + cfg.jitter * u := by linarith
  nlinarith [mul_le_mul_of_nonneg_right hd hfac]

/-- Witness for C7 (amended) at the default config (jitter 1/10) with draw
u = 1: backoff at attempt 0 is at most backoff at attempt 5, and attempt 5 is
capped at 60. -/
theorem calculate_backoff_monotone_capped_witness :
    calculateBackoff {} 0 1 ≤ calculateBackoff {} 5 1 ∧
    calculateBackoff {} 5 1 ≤ 60 :=
  calculate_backoff_monotone_capped {} 1 0 5 (by norm_num) (by norm_num)
    (by norm_num) (by norm_num)

/-- `try_half_open` either leaves the state untouched or only flips the state
field to HALF_OPEN. -/
theorem tryHalfOpen_state_cases (cfg : CircuitBreakerConfig) (now : ℤ)
    (s : CBState) :
    (tryHalfOpen cfg now s).2.1 = s ∨
    (tryHalfOpen cfg now s).2.1 = { s with state := .HALF_OPEN } := by
  unfold tryHalfOpen
  rcases ht : s.tripTime with _ | t <;> dsimp only <;> split_ifs <;> simp

/-- Every in-memory operation preserves the OPEN-implies-trip-time
invariant. -/
theorem applyCBOp_preserves_inv (cfg : CircuitBreakerConfig) (s : CBState)
    (op : CBOp) (h : CBInv s) : CBInv (applyCBOp cfg s op) := by
  cases op with
  | opTrip reason t =>
      simp only [applyCBOp]
      unfold trip
      split_ifs with ho
      · exact h
      · intro _; simp
  | opReset =>
      simp only [applyCBOp]
      unfold reset
      intro hOpen
      simp at hOpen
  | opTryHalfOpen t =>
      simp only [applyCBOp]
      rcases tryHalfOpen_state_cases cfg t s with hcase | hcase <;> rw [hcase]
      · exact h
      · intro hOpen; simp at hOpen

/-- The invariant holds at every state reachable by a sequence of operations
from a given invariant-satisfying state. -/
theorem foldl_applyCBOp_inv (cfg : CircuitBreakerConfig) (ops : List CBOp)
    (s : CBState) (h : CBInv s) : CBInv (ops.foldl (applyCBOp cfg) s) := by
  induction ops generalizing s with
  | nil => simpa using h
  | cons op rest ih => exact ih _ (applyCBOp_preserves_inv cfg s op h)

/-- The invariant holds for every reachable state of a `CircuitBreaker`. -/
theorem runCBOps_inv (cfg : CircuitBreakerConfig) (ops : List CBOp) :
    CBInv (runCBOps cfg ops) := by
  unfold runCBOps
  apply foldl_applyCBOp_inv
  intro h
  simp [CBState.init] at h

/-- Characterization of `try_half_open` on any state satisfying the
invariant. -/
theorem tryHalfOpen_spec_of_inv (cfg : CircuitBreakerConfig) (now : ℤ)
    (s : CBState) (hinv : CBInv s) :
    ((tryHalfOpen cfg now s).1 = true ↔
      s.state = .OPEN ∧
        ∃ t, s.tripTime = some t ∧ cfg.recoveryTimeoutSeconds ≤ now - t) ∧
    ((tryHalfOpen cfg now s).1 = true →
      (tryHalfOpen cfg now s).2.1 = { s with state := .HALF_OPEN }) ∧
    ((tryHalfOpen cfg now s).1 = false →
      (tryHalfOpen cfg now s).2.1 = s) := by
  unfold tryHalfOpen
  by_cases ho : s.state = .OPEN
  · rw [if_neg (by simp [ho])]
    cases ht : s.tripTime with
    | none => exact absurd ht (hinv ho)
    | some t =>
        dsimp only
        split_ifs with hel
        · refine ⟨?_, by simp, fun _ => rfl⟩
          constructor
          · intro hfalse; simp at hfalse
          · rintro ⟨-, t', ht', hle⟩
            obtain rfl : t = t' := by injection ht'
            exfalso
            omega
        · exact ⟨⟨fun _ => ⟨ho, t, rfl, by omega⟩, fun _ => rfl⟩, fun _ => rfl,
            by simp⟩
  · rw [if_pos ho]
    exact ⟨by simp [ho], by simp, fun _ => rfl⟩

/-- C1: for every reachable `CircuitBreaker` state, `try_half_open` at
instant `now` succeeds if and only if the state is OPEN and
`now - trip_time ≥ recovery_timeout_seconds`; on success the state moves to
HALF_OPEN (nothing else changes; the risk-level breaker keeps no success
counter), and in every other case it returns false and leaves the state
unchanged — so HALF_OPEN is reachable only from OPEN after the configured
recovery delay. -/
theorem try_half_open_characterization (cfg : CircuitBreakerConfig)
    (ops : List CBOp) (now : ℤ) :
    ((tryHalfOpen cfg now (runCBOps cfg ops)).1 = true ↔
      (runCBOps cfg ops).state = .OPEN ∧
        ∃ t, (runCBOps cfg ops).tripTime = some t ∧
          cfg.recoveryTimeoutSeconds ≤ now - t) ∧
    ((tryHalfOpen cfg now (runCBOps cfg ops)).1 = true →
      (tryHalfOpen cfg now (runCBOps cfg ops)).2.1 =
        { runCBOps cfg ops with state := .HALF_OPEN }) ∧
    ((tryHalfOpen cfg now (runCBOps cfg ops)).1 = false →
      (tryHalfOpen cfg now (runCBOps cfg ops)).2.1 = runCBOps cfg ops) :=
  tryHalfOpen_spec_of_inv cfg now (runCBOps cfg ops) (runCBOps_inv cfg ops)

/-- Witness for C1: after a single trip at time 0 with the default 300-second
recovery timeout, `try_half_open` at time 1000 succeeds. -/
theorem try_half_open_characterization_witness :
    (tryHalfOpen {} 1000 (runCBOps {} [.opTrip "daily_loss" 0])).1 = true :=
  (try_half_open_characterization {} [.opTrip "daily_loss" 0] 1000).1.mpr
    ⟨rfl, 0, rfl, by norm_num⟩

/-- `record_failure` always stamps the failure time. -/
theorem recordFailure_lastFailureTime (cfg : ServiceBreakerConfig) (now : ℚ)
    (s : SCState) : (recordFailure cfg now s).lastFailureTime = some now := by
  simp only [recordFailure, transitionToOpen]
  split_ifs <;> rfl

/-- `record_failure` never leaves the OPEN state. -/
theorem recordFailure_open (cfg : ServiceBreakerConfig) (now : ℚ) (s : SCState)
    (h : s.state = .OPEN) : (recordFailure cfg now s).state = .OPEN := by
  simp only [recordFailure, transitionToOpen]
  split_ifs <;> simp_all

/-- A failure streak starting from OPEN stays OPEN. -/
theorem foldl_recordFailure_open (cfg : ServiceBreakerConfig) (ts : List ℚ)
    (s : SCState) (h : s.state = .OPEN) :
    (ts.foldl (fun a t => recordFailure cfg t a) s).state = .OPEN := by
  induction ts generalizing s with
  | nil => simpa using h
  | cons t rest ih => exact ih _ (recordFailure_open cfg t s h)

/-- A nonempty failure streak from a CLOSED state whose length carries the
failure count to the threshold ends OPEN. -/
theorem foldl_recordFailure_opens (cfg : ServiceBreakerConfig) (ts : List ℚ)
    (s : SCState) (hC : s.state = .CLOSED)
    (hth : cfg.failureThreshold ≤ s.failureCount + ts.length) (hne : ts ≠ []) :
    (ts.foldl (fun a t => recordFailure cfg t a) s).state = .OPEN := by
  induction ts generalizing s with
  | nil => exact absurd rfl hne
  | cons t rest ih =>
      simp only [List.foldl_cons]
      by_cases hcross : cfg.failureThreshold ≤ s.failureCount + 1
      · apply foldl_recordFailure_open
        simp only [recordFailure, transitionToOpen]
        split_ifs <;> simp_all
      · have hstate : (recordFailure cfg t s).state = .CLOSED := by
          simp only [recordFailure, transitionToOpen]
          split_ifs <;> simp_all
        have hfc : (recordFailure cfg t s).failureCount = s.failureCount + 1 := by
          simp only [recordFailure, transitionToOpen]
          split_ifs <;> rfl
        have hrest : rest ≠ [] := by
          cases rest with
          | nil => simp at hth; omega
          | cons _ _ => simp
        apply ih _ hstate _ hrest
        rw [hfc]
        simp only [List.length_cons] at hth
        omega

/-- C8: a per-service breaker starting CLOSED moves to OPEN after
`failure_threshold` consecutive recorded failures; once `reset_timeout` has
elapsed since the last of them, reading its state reports HALF_OPEN; and with
`success_threshold = 1`, one recorded success in that HALF_OPEN state moves
it to CLOSED. -/
theorem service_breaker_lifecycle (cfg : ServiceBreakerConfig) (s0 : SCState)
    (ts : List ℚ) (now : ℚ)
    (hlen : ts.length = cfg.failureThreshold) (hpos : 0 < cfg.failureThreshold)
    (hC : s0.state = .CLOSED) (hsucc : cfg.successThreshold = 1) :
    (ts.foldl (fun a t => recordFailure cfg t a) s0).state = .OPEN ∧
    (∀ t,
      (ts.foldl (fun a t => recordFailure cfg t a) s0).lastFailureTime = some t →
      cfg.resetTimeout ≤ now - t →
      (readState cfg now (ts.foldl (fun a t => recordFailure cfg t a) s0)).1 =
        .HALF_OPEN ∧
      (recordSuccess cfg
        (readState cfg now
          (ts.foldl (fun a t => recordFailure cfg t a) s0)).2).state =
        .CLOSED) := by
  have hne : ts ≠ [] := by
    intro h
    rw [h] at hlen
    simp at hlen
    omega
  have hOpen := foldl_recordFailure_opens cfg ts s0 hC (by omega) hne
  refine ⟨hOpen, ?_⟩
  intro t hlt hel
  constructor
  · simp [readState, checkStateTransition, hOpen, hlt, hel, transitionToHalfOpen]
  · simp [readState, checkStateTransition, hOpen, hlt, hel, transitionToHalfOpen,
      recordSuccess, transitionToClosed, hsucc]

/-- Witness for C8: threshold 2 breaker, failures at times 0 and 5, state read
at time 100 against a 60-second reset timeout, then one success. -/
theorem service_breaker_lifecycle_witness :
    ([0, 5].foldl (fun a t => recordFailure ⟨2, 1, 60, 1⟩ t a) SCState.init).state =
      .OPEN ∧
    (readState ⟨2, 1, 60, 1⟩ 100
      ([0, 5].foldl (fun a t => recordFailure ⟨2, 1, 60, 1⟩ t a) SCState.init)).1 =
      .HALF_OPEN ∧
    (recordSuccess ⟨2, 1, 60, 1⟩
      (readState ⟨2, 1, 60, 1⟩ 100
        ([0, 5].foldl (fun a t => recordFailure ⟨2, 1, 60, 1⟩ t a)
          SCState.init)).2).state = .CLOSED := by
  have h := service_breaker_lifecycle ⟨2, 1, 60, 1⟩ SCState.init [0, 5] 100 rfl
    (by norm_num) rfl rfl
  have h5 := h.2 5 rfl (by norm_num)
  exact ⟨h.1, h5.1, h5.2⟩

end TinyWindow
